import Mathlib

/-!
Shallow embedding of the iqro-gesture backend (Python) in Lean 4.

Covered source:
  backend/app/config.py            — static configuration (labels, maps, constants)
  backend/app/services/inference.py — preprocess_landmarks, predict, _dummy_predict
  backend/app/services/tts_service.py — cache path sanitization, generate_audio, clear_cache
  backend/app/api/websocket.py     — process_landmarks (the per-message pipeline)

Modelling conventions.  Python floats become ℚ (every numeric literal the
properties depend on — 0.5, 0.3, 0.7, 0.95, the threshold — is exactly
representable).  Raw audio bytes become `List ℕ`; the final
`base64.b64encode(...).decode()` in the code is a deterministic injection
applied at the boundary, so byte-level equality of what the cache stores and
returns is modelled directly on the bytes.  The file-system cache directory
becomes an association list from sanitized key to bytes.  External
nondeterminism (which inference strategy runs, the values the `random`
module draws, what the LSTM computes, whether gTTS succeeds) is passed in
explicitly as parameters, so every function is pure and total; a Python
exception becomes the explicit branch the corresponding `except` handler
takes.
-/

/-- config.py `Settings.LABELS`: the fixed gesture vocabulary (Hijaiyah
letters followed by Al-Fatihah chunks), transcribed verbatim.  Note it
contains both `"Ta"` (index 2) and `"ta"` (index 37). -/
def LABELS : List String :=
  ["Alif", "Ba", "Ta", "Tsa", "Jim",
   "bis", "mil", "lah", "hir", "rah", "maa", "nir", "ra", "hiim",
   "al", "ham", "du", "lil", "rab", "bil", "aa", "la", "miin",
   "ar", "li", "ki", "yaw", "mi", "dii", "ni",
   "iy", "yaa", "ka", "na", "bu", "wa", "nas", "ta", "iin",
   "ih", "di", "naa", "as", "shi", "raa", "tal", "mus", "qiim",
   "dhi", "an", "am", "a", "lai", "him", "ghai", "ril", "magh",
   "duu", "bi", "lad", "dhaal", "liin"]

/-- config.py `Settings.ARABIC_LABELS`: display-form mapping. -/
def ARABIC_LABELS : List (String × String) :=
  [("Alif", "أَلِف"), ("Ba", "بَاء"), ("Ta", "تَاء"), ("Tsa", "ثَاء"), ("Jim", "جِيم")]

/-- config.py `Settings.ARABIC_PRONUNCIATION`: pronunciation-text mapping. -/
def ARABIC_PRONUNCIATION : List (String × String) :=
  [("Alif", "Alif"), ("Ba", "Ba"), ("Ta", "Ta"), ("Tsa", "Tsa"), ("Jim", "Jim"),
   ("mil", "mil"), ("lah", "lah"), ("hiim", "him"), ("miin", "min"), ("qiim", "qim")]

/-- config.py `Settings.SEQUENCE_LENGTH` (the window target length). -/
def SEQUENCE_LENGTH : ℕ := 30

/-- config.py `Settings.LANDMARK_SIZE` (flattened feature width, 21·3). -/
def LANDMARK_SIZE : ℕ := 63

/-- config.py `Settings.CONFIDENCE_THRESHOLD` (0.5, exactly representable). -/
def CONFIDENCE_THRESHOLD : ℚ := 1 / 2

/-- inference.py `InferenceService.preprocess_landmarks`, after the
`arr.reshape` step: the input is already the 2-D `(seq_len, width)` form
(a 3-D `(seq_len, 21, 3)` input is flattened per frame before this point).
`tgt` is `settings.SEQUENCE_LENGTH` and `w` is `settings.LANDMARK_SIZE`;
both are kept as parameters.  Shorter inputs are front-padded with
`np.zeros((tgt - len, w))` via `np.vstack([padding, arr])`, longer inputs
keep the last `tgt` rows (`arr[-tgt:]`), equal-length inputs pass through. -/
def preprocessLandmarks (tgt w : ℕ) (arr : List (List ℚ)) : List (List ℚ) :=
  if arr.length < tgt then
    List.replicate (tgt - arr.length) (List.replicate w 0) ++ arr
  else if arr.length > tgt then
    arr.drop (arr.length - tgt)
  else
    arr

/-- inference.py `_dummy_predict`: `np.array(landmarks)` only builds a
numeric array when the nesting is rectangular; on a ragged input it raises
and the `except` handler runs. -/
def isRectangular (arr : List (List ℚ)) : Bool :=
  match arr with
  | [] => true
  | r :: rs => rs.all (fun s => s.length == r.length)

/-- `np.var` over all elements of the array (default `ddof=0`): mean of
squared deviations from the mean.  Only ever used on a nonempty element
list; `np.var` of an empty array is NaN, which makes the subsequent
`int(...)` raise, an event modelled as the fault branch of `dummyPredict`. -/
def npVar (xs : List ℚ) : ℚ :=
  ((xs.map (fun x => (x - xs.sum / xs.length) ^ 2)).sum) / xs.length

/-- Python `int(...)` on a finite real value: truncation toward zero. -/
def pyInt (q : ℚ) : ℤ := if 0 ≤ q then ⌊q⌋ else ⌈q⌉

/-- Python `%` with a positive modulus: the result is in `[0, n)`, which is
`Int.emod`. -/
def pyMod (a : ℤ) (n : ℕ) : ℕ := (a.emod n).toNat

/-- The three draws `_dummy_predict` takes from the `random` module:
`coin` is `random.random()`, `ridx` is `random.randint(0, len(labels)-1)`,
`conf` is `random.uniform(0.7, 0.95)`. -/
structure Rng where
  coin : ℚ
  ridx : ℕ
  conf : ℚ

/-- Range guarantees the `random` module provides for the three draws. -/
def Rng.Valid (r : Rng) : Prop :=
  0 ≤ r.coin ∧ r.coin < 1 ∧ r.ridx < LABELS.length ∧
  7 / 10 ≤ r.conf ∧ r.conf ≤ 19 / 20

/-- inference.py `InferenceService._dummy_predict`.  The fault branch is the
`except` handler (lines 216–218): it returns `(self.labels[0], 0.5, 0)`.
The normal path maps the element variance to a class index, replaces it by a
random index with probability 0.3, and draws a confidence uniformly from
[0.7, 0.95]. -/
def dummyPredict (rng : Rng) (landmarks : List (List ℚ)) : String × ℚ × ℕ :=
  if isRectangular landmarks = false ∨ landmarks.flatten = [] then
    (LABELS.getD 0 "", 1 / 2, 0)
  else
    let v := npVar landmarks.flatten
    let baseIdx := pyMod (pyInt (v * 1000)) LABELS.length
    let classIdx := if rng.coin < 3 / 10 then rng.ridx else baseIdx
    (LABELS.getD classIdx "", rng.conf, classIdx)

/-- `torch.softmax` along the class dimension, with the exponential
abstracted as a function `e` (strict positivity of `exp` is the only
property the code's guarantees rely on; it is supplied as a hypothesis
where needed). -/
def softmax (e : ℚ → ℚ) (xs : List ℚ) : List ℚ :=
  xs.map (fun x => e x / (xs.map e).sum)

/-- Index of the first maximal element — `torch.max(probabilities, dim=1)`
index output. -/
def argmaxIdx : List ℚ → ℕ
  | [] => 0
  | [_] => 0
  | x :: y :: rest =>
    if (y :: rest).getD (argmaxIdx (y :: rest)) 0 > x then argmaxIdx (y :: rest) + 1
    else 0

/-- Which branch of `InferenceService.predict` runs, carrying the external
nondeterminism it consumes.  `model e logits` is the loaded-model path that
reaches `torch.softmax` with raw model outputs `logits` (`e` abstracts
`exp`); `modelFault rng` is the `except` path of `predict` (preprocessing or
inference raised), which falls back to `_dummy_predict`; `dummy rng` is the
`self.use_dummy or not self.model_loaded` path. -/
inductive PredictPath where
  | model (e : ℚ → ℚ) (logits : List ℚ)
  | modelFault (rng : Rng)
  | dummy (rng : Rng)

/-- inference.py `InferenceService.predict` (lines 154–186): dispatch to the
dummy heuristic, the loaded model, or — when the model path raises — the
dummy heuristic as fallback.  On the model path, `confidence, predicted_idx
= torch.max(softmax(outputs))` and `predicted_label =
self.labels[predicted_idx]`. -/
def predict (path : PredictPath) (landmarks : List (List ℚ)) : String × ℚ × ℕ :=
  match path with
  | .dummy rng => dummyPredict rng landmarks
  | .modelFault rng => dummyPredict rng landmarks
  | .model e logits =>
    let probs := softmax e logits
    let idx := argmaxIdx probs
    (LABELS.getD idx "", probs.getD idx 0, idx)

/-- Side conditions the environment guarantees for each path: `exp` is
strictly positive; the loaded model was built with `num_classes =
len(self.labels)` output units (inference.py line 92); the `random` draws
are in range. -/
def PredictPath.Valid : PredictPath → Prop
  | .model e logits => (∀ x, 0 < e x) ∧ logits.length = LABELS.length
  | .modelFault rng => rng.Valid
  | .dummy rng => rng.Valid

/-! ## tts_service.py -/

/-- Raw audio bytes (what gTTS writes and the cache file stores). -/
abbrev Bytes := List ℕ

/-- tts_service.py `TTSService._get_cache_path` (lines 31–35): the sanitized
cache key — keep alphanumerics, `-` and `_`, then lowercase the result.  The
cache file is `{key}.mp3`; the key itself is what is modelled. -/
def sanitizeLabel (label : String) : String :=
  String.mk ((label.data.filter
    (fun c => c.isAlphanum || c == '-' || c == '_')).map Char.toLower)

/-- `self.pronunciation_map.get(label, label)` against
`settings.ARABIC_PRONUNCIATION`. -/
def pronunciationText (label : String) : String :=
  ((ARABIC_PRONUNCIATION.find? (fun p => p.1 == label)).map Prod.snd).getD label

/-- The audio cache directory: an association list from sanitized key to the
byte content of `{key}.mp3`, most recently written first. -/
structure TTSState where
  cache : List (String × Bytes)
deriving DecidableEq

/-- `cache_path.exists()` plus reading the cached file. -/
def TTSState.lookup (s : TTSState) (key : String) : Option Bytes :=
  (s.cache.find? (fun p => p.1 == key)).map Prod.snd

/-- Result of one `generate_audio` call: the returned pair (`audio` is the
byte content that gets base64-encoded, `fmt` the `"mp3"` tag), the cache
state after the call, and how many times the gTTS synthesis capability was
invoked (0 or 1). -/
structure GenResult where
  audio : Option Bytes
  fmt : Option String
  state : TTSState
  synthCalls : ℕ
deriving DecidableEq

/-- tts_service.py `TTSService.generate_audio` (lines 37–87).  `enabled` is
`settings.TTS_ENABLED`; `synth text` is the deterministic external gTTS
capability; `synth text = none` models `gTTS`/`write_to_fp` raising, which
the `except` handler turns into a returned `(None, None)` with no cache
file written. -/
def generate_audio (enabled : Bool) (synth : String → Option Bytes)
    (s : TTSState) (label : String) : GenResult :=
  if enabled = false then ⟨none, none, s, 0⟩
  else
    let text := pronunciationText label
    let key := sanitizeLabel label
    match s.lookup key with
    | some data => ⟨some data, some "mp3", s, 0⟩
    | none =>
      match synth text with
      | some data => ⟨some data, some "mp3", ⟨(key, data) :: s.cache⟩, 1⟩
      | none => ⟨none, none, s, 1⟩

/-- tts_service.py `TTSService.clear_cache` (lines 122–130): unlink every
`*.mp3` file in the cache directory — every entry, since each entry is a
`{key}.mp3` file — and return the count of files deleted. -/
def clear_cache (s : TTSState) : ℕ × TTSState :=
  (s.cache.length, ⟨[]⟩)

/-! ## websocket.py process_landmarks -/

/-- `settings.ARABIC_LABELS.get(predicted_label, predicted_label)`. -/
def arabicLabel (label : String) : String :=
  ((ARABIC_LABELS.find? (fun p => p.1 == label)).map Prod.snd).getD label

/-- Python 3 `round(q, 3)` scaled: round half to even (exact-value
idealization of the float rounding). -/
def roundHalfEven (q : ℚ) : ℤ :=
  if q - ⌊q⌋ < 1 / 2 then ⌊q⌋
  else if q - ⌊q⌋ > 1 / 2 then ⌊q⌋ + 1
  else if ⌊q⌋ % 2 = 0 then ⌊q⌋ else ⌊q⌋ + 1

/-- `round(confidence, 3)` at websocket.py line 273. -/
def round3 (q : ℚ) : ℚ := (roundHalfEven (q * 1000) : ℚ) / 1000

/-- One observable action of `process_landmarks`, in dispatch order:
messages queued on the session's transport, and the database append. -/
inductive Event where
  | sendError (msg : String)
  | sendLowConfidence (confidence : ℚ)
  | sendPrediction (label arabic : String) (confidence : ℚ) (classIdx : ℕ)
      (audio : Option (Bytes × String))
  | dbLogPrediction (label : String) (confidence : ℚ)
deriving DecidableEq

/-- Recognizer for the `prediction` response message. -/
def Event.isPredictionMsg : Event → Bool
  | .sendPrediction _ _ _ _ _ => true
  | _ => false

/-- Recognizer for the `low_confidence` response message. -/
def Event.isLowConfidenceMsg : Event → Bool
  | .sendLowConfidence _ => true
  | _ => false

/-- Recognizer for the database prediction append. -/
def Event.isDbLog : Event → Bool
  | .dbLogPrediction _ _ => true
  | _ => false

/-- websocket.py `manager.session_data[session_id]`: the per-session mutable
counters that `process_landmarks` touches (lines 262–265). -/
structure SessionData where
  predictionCount : ℕ
  lastPrediction : Option String
deriving DecidableEq

/-- Everything one `process_landmarks` invocation produces: its ordered
event trace, the session counters afterwards, and the audio cache
afterwards. -/
structure PipelineResult where
  events : List Event
  session : SessionData
  tts : TTSState
deriving DecidableEq

/-- The optional audio fields of the `prediction` response: the code attaches
`audio_base64`/`audio_format` only when `audio_base64` is truthy, i.e. when
synthesis produced a nonempty byte string (base64 of empty bytes is the
empty, falsy string). -/
def audioPayload (r : GenResult) : Option (Bytes × String) :=
  match r.audio with
  | some b => if b = [] then none else some (b, r.fmt.getD "mp3")
  | none => none

/-- websocket.py `process_landmarks` (lines 212–293), for a session present
in `manager.session_data` (the endpoint registers it at connect time and the
per-connection loop is sequential).  Events appear in the order the code
dispatches them: validation error, or `low_confidence`, or the database
append (lines 250–258) followed by the response send (line 284).  A failure
of the db append itself is caught inside `process_landmarks` and only
logged, so it changes neither the event order nor the rest of the run; the
dispatch is modelled as the single `dbLogPrediction` event. -/
def process_landmarks (path : PredictPath) (enabled : Bool)
    (synth : String → Option Bytes) (tts : TTSState) (sess : SessionData)
    (sequence : List (List ℚ)) : PipelineResult :=
  if sequence.length < 10 then
    ⟨[.sendError "Insufficient landmark data"], sess, tts⟩
  else
    let pr := predict path sequence
    if pr.2.1 < CONFIDENCE_THRESHOLD then
      ⟨[.sendLowConfidence pr.2.1], sess, tts⟩
    else
      let r := generate_audio enabled synth tts pr.1
      ⟨[.dbLogPrediction pr.1 pr.2.1,
        .sendPrediction pr.1 (arabicLabel pr.1) (round3 pr.2.1) pr.2.2
          (audioPayload r)],
       ⟨sess.predictionCount + 1, some pr.1⟩, r.state⟩

/-- The ordering property claimed for the log append: no database dispatch
happens before the `prediction` response has been queued (every `dbLog`
event comes after the first `sendPrediction` event). -/
def logOnlyAfterResponse (evs : List Event) : Bool :=
  (evs.takeWhile (fun e => !e.isPredictionMsg)).all (fun e => !e.isDbLog)

/-! ## Helper lemmas -/

theorem pyMod_lt (a : ℤ) (n : ℕ) (h : 0 < n) : pyMod a n < n := by
  unfold pyMod
  have hn : (n : ℤ) ≠ 0 := by exact_mod_cast h.ne'
  have h1 : 0 ≤ a.emod n := Int.emod_nonneg a hn
  have h2 : a.emod n < n := Int.emod_lt_of_pos a (by exact_mod_cast h)
  omega

theorem getD_mem_of_lt (xs : List ℚ) (i : ℕ) (h : i < xs.length) :
    xs.getD i 0 ∈ xs := by
  induction xs generalizing i with
  | nil => simp at h
  | cons x xs ih =>
    cases i with
    | zero => simp [List.getD]
    | succ j =>
      simp only [List.getD_cons_succ]
      exact List.mem_cons_of_mem _ (ih j (by simpa using h))

theorem argmaxIdx_lt (xs : List ℚ) (h : xs ≠ []) : argmaxIdx xs < xs.length := by
  induction xs with
  | nil => exact absurd rfl h
  | cons x xs ih =>
    cases xs with
    | nil => simp [argmaxIdx]
    | cons y rest =>
      have hne : y :: rest ≠ [] := by simp
      have hlt := ih hne
      simp only [List.length_cons] at hlt
      by_cases hc : (y :: rest).getD (argmaxIdx (y :: rest)) 0 > x
      · simp only [argmaxIdx, if_pos hc, List.length_cons]
        omega
      · simp only [argmaxIdx, if_neg hc, List.length_cons]
        omega

theorem softmax_length (e : ℚ → ℚ) (xs : List ℚ) :
    (softmax e xs).length = xs.length := by
  simp [softmax]

theorem softmax_mem_bounds (e : ℚ → ℚ) (he : ∀ x, 0 < e x) (xs : List ℚ)
    (p : ℚ) (hp : p ∈ softmax e xs) : 0 ≤ p ∧ p ≤ 1 := by
  simp only [softmax, List.mem_map] at hp
  obtain ⟨x, hx, rfl⟩ := hp
  have hmem : e x ∈ xs.map e := List.mem_map_of_mem e hx
  have hpos : ∀ q ∈ xs.map e, 0 ≤ q := by
    intro q hq
    obtain ⟨z, _, rfl⟩ := List.mem_map.mp hq
    exact (he z).le
  have hle : e x ≤ (xs.map e).sum := List.single_le_sum hpos _ hmem
  have hS : 0 < (xs.map e).sum := lt_of_lt_of_le (he x) hle
  constructor
  · exact div_nonneg (he x).le hS.le
  · exact (div_le_one hS).mpr hle

theorem dummyPredict_invariants (rng : Rng) (landmarks : List (List ℚ))
    (h : rng.Valid) :
    (dummyPredict rng landmarks).1 =
      LABELS.getD (dummyPredict rng landmarks).2.2 "" ∧
    (dummyPredict rng landmarks).2.2 < LABELS.length ∧
    0 ≤ (dummyPredict rng landmarks).2.1 ∧ (dummyPredict rng landmarks).2.1 ≤ 1 := by
  obtain ⟨-, -, hridx, hc1, hc2⟩ := h
  have hlabels : 0 < LABELS.length := by decide
  unfold dummyPredict
  by_cases hf : isRectangular landmarks = false ∨ landmarks.flatten = []
  · simp only [if_pos hf]
    exact ⟨trivial, hlabels, by norm_num, by norm_num⟩
  · simp only [if_neg hf]
    by_cases hcoin : rng.coin < 3 / 10
    · simp only [if_pos hcoin]
      exact ⟨trivial, hridx, by linarith, by linarith⟩
    · simp only [if_neg hcoin]
      exact ⟨trivial, pyMod_lt _ _ hlabels, by linarith, by linarith⟩

/-! ## Claim theorems: preprocessing -/

/-- C1: the normalized window has exactly `tgt` rows; when the input is
shorter, the output is `tgt − L` all-zero rows of width `w` followed by the
input unchanged; when longer, exactly the last `tgt` input rows survive in
order; when equal, the input passes through unchanged. -/
theorem preprocess_landmarks_window (tgt w : ℕ) (arr : List (List ℚ)) :
    (preprocessLandmarks tgt w arr).length = tgt ∧
    (arr.length < tgt →
      preprocessLandmarks tgt w arr =
        List.replicate (tgt - arr.length) (List.replicate w 0) ++ arr) ∧
    (tgt < arr.length →
      preprocessLandmarks tgt w arr = arr.drop (arr.length - tgt)) ∧
    (arr.length = tgt → preprocessLandmarks tgt w arr = arr) := by
  unfold preprocessLandmarks
  rcases lt_trichotomy arr.length tgt with h | h | h
  · simp [h, Nat.le_of_lt h]
    omega
  · simp [h]
  · have h1 : ¬ arr.length < tgt := by omega
    simp [h1, h]
    omega

/-- C1 witness: concrete instances of the three cases at target length 3,
width 2. -/
theorem preprocess_landmarks_window_witness :
    preprocessLandmarks 3 2 [[1, 1], [2, 2]] =
      List.replicate (3 - 2) (List.replicate 2 (0 : ℚ)) ++ [[1, 1], [2, 2]] ∧
    preprocessLandmarks 3 2 [[1, 1], [2, 2], [3, 3], [4, 4]] =
      List.drop (4 - 3) [[1, 1], [2, 2], [3, 3], [4, 4]] ∧
    preprocessLandmarks 3 2 [[1, 1], [2, 2], [3, 3]] = [[1, 1], [2, 2], [3, 3]] :=
  ⟨(preprocess_landmarks_window 3 2 [[1, 1], [2, 2]]).2.1 (by decide),
   (preprocess_landmarks_window 3 2 [[1, 1], [2, 2], [3, 3], [4, 4]]).2.2.1
      (by decide),
   (preprocess_landmarks_window 3 2 [[1, 1], [2, 2], [3, 3]]).2.2.2 (by decide)⟩

/-! ## Claim theorems: classifier fault fallback and invariants -/

/-- C3 counterexample: at the concrete faulting input `[[1], [1, 2]]` (a
ragged nesting, so `np.array` raises and the handler at inference.py
216–218 runs), `predict` returns confidence 0.5 — not 0 as the claim
states. -/
theorem predict_fault_confidence_not_zero :
    predict (.dummy ⟨1 / 2, 0, 4 / 5⟩) [[1], [1, 2]] = ("Alif", 1 / 2, 0) ∧
    (predict (.dummy ⟨1 / 2, 0, 4 / 5⟩) [[1], [1, 2]]).2.1 ≠ 0 := by
  have hf : isRectangular [[(1 : ℚ)], [1, 2]] = false ∨
      ([[(1 : ℚ)], [1, 2]] : List (List ℚ)).flatten = [] := Or.inl (by decide)
  simp only [predict, dummyPredict, if_pos hf]
  refine ⟨?_, by norm_num⟩
  simp [LABELS]

/-- C3 (amended): when the dummy heuristic itself hits an internal fault
(ragged or element-empty landmark array) — whether it was reached directly
or as the loaded-model path's exception fallback — `predict` does not raise
and returns the first vocabulary entry with confidence 0.5 and class
index 0. -/
theorem predict_fault_default (rng : Rng) (landmarks : List (List ℚ))
    (path : PredictPath)
    (hpath : path = .dummy rng ∨ path = .modelFault rng)
    (hfault : isRectangular landmarks = false ∨ landmarks.flatten = []) :
    predict path landmarks = (LABELS.getD 0 "", 1 / 2, 0) := by
  rcases hpath with h | h <;> subst h <;>
    simp only [predict, dummyPredict, if_pos hfault]

/-- C3 witness for the amended statement: the model path faults on a ragged
input and falls back to the safe default. -/
theorem predict_fault_default_witness :
    predict (.modelFault ⟨0, 0, 4 / 5⟩) [[1], [1, 2]] = (LABELS.getD 0 "", 1 / 2, 0) :=
  predict_fault_default ⟨0, 0, 4 / 5⟩ [[1], [1, 2]] _ (Or.inr rfl)
    (Or.inl (by decide))

/-- C5: every triple returned by `predict` — loaded model, dummy heuristic,
or fault fallback — satisfies `label = LABELS[classIndex]`, `classIndex <
LABELS.length`, and `confidence ∈ [0, 1]`. -/
theorem prediction_invariants (path : PredictPath) (landmarks : List (List ℚ))
    (h : path.Valid) :
    (predict path landmarks).1 = LABELS.getD (predict path landmarks).2.2 "" ∧
    (predict path landmarks).2.2 < LABELS.length ∧
    0 ≤ (predict path landmarks).2.1 ∧ (predict path landmarks).2.1 ≤ 1 := by
  cases path with
  | model e logits =>
    obtain ⟨he, hlen⟩ := h
    have hlogits : logits ≠ [] := by
      intro hnil
      rw [hnil] at hlen
      exact absurd hlen.symm (by decide)
    have hne : softmax e logits ≠ [] := by simp [softmax, hlogits]
    have hidx : argmaxIdx (softmax e logits) < (softmax e logits).length :=
      argmaxIdx_lt _ hne
    have hmem : (softmax e logits).getD (argmaxIdx (softmax e logits)) 0
        ∈ softmax e logits := getD_mem_of_lt _ _ hidx
    have hb := softmax_mem_bounds e he logits _ hmem
    refine ⟨rfl, ?_, hb.1, hb.2⟩
    rw [softmax_length, hlen] at hidx
    exact hidx
  | modelFault rng => exact dummyPredict_invariants rng landmarks h
  | dummy rng => exact dummyPredict_invariants rng landmarks h

/-- C5 witness: the invariants hold at a concrete dummy-path run. -/
theorem prediction_invariants_witness :
    (predict (.dummy ⟨1 / 2, 1, 4 / 5⟩) [[0, 0], [0, 0]]).1 =
      LABELS.getD (predict (.dummy ⟨1 / 2, 1, 4 / 5⟩) [[0, 0], [0, 0]]).2.2 "" ∧
    (predict (.dummy ⟨1 / 2, 1, 4 / 5⟩) [[0, 0], [0, 0]]).2.2 < LABELS.length ∧
    0 ≤ (predict (.dummy ⟨1 / 2, 1, 4 / 5⟩) [[0, 0], [0, 0]]).2.1 ∧
    (predict (.dummy ⟨1 / 2, 1, 4 / 5⟩) [[0, 0], [0, 0]]).2.1 ≤ 1 :=
  prediction_invariants (.dummy ⟨1 / 2, 1, 4 / 5⟩) [[0, 0], [0, 0]]
    ⟨by norm_num, by norm_num, by decide, by norm_num, by norm_num⟩

/-! ## Claim theorems: the per-message pipeline -/

/-- C2: for every landmarks message that passes input validation (at least
10 frames): a below-threshold confidence yields exactly one `low_confidence`
message carrying the raw confidence and leaves the session state untouched;
an at-or-above-threshold confidence yields exactly one `prediction` message,
no `low_confidence` message, and increments the prediction counter by
exactly 1. -/
theorem confidence_gate (path : PredictPath) (enabled : Bool)
    (synth : String → Option Bytes) (tts : TTSState) (sess : SessionData)
    (sequence : List (List ℚ)) (hvalid : 10 ≤ sequence.length) :
    ((predict path sequence).2.1 < CONFIDENCE_THRESHOLD →
      (process_landmarks path enabled synth tts sess sequence).events =
        [.sendLowConfidence (predict path sequence).2.1] ∧
      (process_landmarks path enabled synth tts sess sequence).session = sess) ∧
    (CONFIDENCE_THRESHOLD ≤ (predict path sequence).2.1 →
      ((process_landmarks path enabled synth tts sess sequence).events.countP
        (fun e => e.isPredictionMsg)) = 1 ∧
      ((process_landmarks path enabled synth tts sess sequence).events.countP
        (fun e => e.isLowConfidenceMsg)) = 0 ∧
      (process_landmarks path enabled synth tts sess sequence).session.predictionCount
        = sess.predictionCount + 1) := by
  have h10 : ¬ sequence.length < 10 := by omega
  unfold process_landmarks
  simp only [if_neg h10]
  constructor
  · intro hc
    simp only [if_pos hc]
    exact ⟨trivial, trivial⟩
  · intro hc
    have hc' : ¬ (predict path sequence).2.1 < CONFIDENCE_THRESHOLD := not_lt.mpr hc
    simp only [if_neg hc']
    refine ⟨?_, ?_, trivial⟩ <;>
      simp [List.countP_cons, Event.isPredictionMsg, Event.isLowConfidenceMsg]

/-- C2 witness: a below-threshold run (confidence 1/4) leaves the counter at
0; an above-threshold run (confidence 9/10) on the same input brings it to
0 + 1. -/
theorem confidence_gate_witness :
    (process_landmarks (.dummy ⟨1, 0, 1 / 4⟩) false (fun _ => none) ⟨[]⟩ ⟨0, none⟩
        (List.replicate 10 [0])).events =
      [.sendLowConfidence
        (predict (.dummy ⟨1, 0, 1 / 4⟩) (List.replicate 10 [0])).2.1] ∧
    (process_landmarks (.dummy ⟨1, 0, 1 / 4⟩) false (fun _ => none) ⟨[]⟩ ⟨0, none⟩
        (List.replicate 10 [0])).session = ⟨0, none⟩ ∧
    (process_landmarks (.dummy ⟨1, 0, 9 / 10⟩) false (fun _ => none) ⟨[]⟩ ⟨0, none⟩
        (List.replicate 10 [0])).session.predictionCount = 0 + 1 := by
  have hf : ¬ (isRectangular (List.replicate 10 ([0] : List ℚ)) = false ∨
      (List.replicate 10 ([0] : List ℚ)).flatten = []) := by decide
  have hlen : (10 : ℕ) ≤ (List.replicate 10 ([0] : List ℚ)).length := by decide
  have h1 := (confidence_gate (.dummy ⟨1, 0, 1 / 4⟩) false (fun _ => none) ⟨[]⟩
      ⟨0, none⟩ (List.replicate 10 [0]) hlen).1 (by
        simp only [predict, dummyPredict, if_neg hf]
        norm_num [CONFIDENCE_THRESHOLD])
  have h2 := (confidence_gate (.dummy ⟨1, 0, 9 / 10⟩) false (fun _ => none) ⟨[]⟩
      ⟨0, none⟩ (List.replicate 10 [0]) hlen).2 (by
        simp only [predict, dummyPredict, if_neg hf]
        norm_num [CONFIDENCE_THRESHOLD])
  exact ⟨h1.1, h1.2, h2.2.2⟩

/-- C4 counterexample: a concrete above-threshold run whose event trace
dispatches the database append BEFORE the prediction response is queued
(websocket.py lines 250–258 run before the send at line 284), so the claimed
"log only after the response is queued, never before" is false. -/
theorem log_before_response_counterexample :
    (process_landmarks (.dummy ⟨1, 0, 4 / 5⟩) false (fun _ => none) ⟨[]⟩ ⟨0, none⟩
        ([[1, 2]] ++ List.replicate 9 [1])).events =
      [.dbLogPrediction "Alif" (1 / 2),
       .sendPrediction "Alif" (arabicLabel "Alif") (round3 (1 / 2)) 0 none] ∧
    logOnlyAfterResponse
      (process_landmarks (.dummy ⟨1, 0, 4 / 5⟩) false (fun _ => none) ⟨[]⟩ ⟨0, none⟩
        ([[1, 2]] ++ List.replicate 9 [1])).events = false := by
  have hf : isRectangular ([[1, 2]] ++ List.replicate 9 ([1] : List ℚ)) = false ∨
      ([[1, 2]] ++ List.replicate 9 ([1] : List ℚ)).flatten = [] :=
    Or.inl (by decide)
  have hlen : ¬ (([[1, 2]] ++ List.replicate 9 ([1] : List ℚ)).length < 10) := by
    decide
  have hev : (process_landmarks (.dummy ⟨1, 0, 4 / 5⟩) false (fun _ => none) ⟨[]⟩
      ⟨0, none⟩ ([[1, 2]] ++ List.replicate 9 [1])).events =
      [.dbLogPrediction "Alif" (1 / 2),
       .sendPrediction "Alif" (arabicLabel "Alif") (round3 (1 / 2)) 0 none] := by
    simp only [process_landmarks, if_neg hlen, predict, dummyPredict, if_pos hf]
    rw [if_neg (by norm_num [CONFIDENCE_THRESHOLD])]
    simp [generate_audio, audioPayload, LABELS]
  refine ⟨hev, ?_⟩
  rw [hev]
  simp [logOnlyAfterResponse, Event.isPredictionMsg, Event.isDbLog]

/-- C4 (amended): in every above-threshold run, the best-effort database
append is dispatched synchronously BEFORE the prediction response is queued
— its failure is caught and cannot surface, but its dispatch (and latency)
precedes the response emission rather than following it. -/
theorem log_dispatch_precedes_response (path : PredictPath) (enabled : Bool)
    (synth : String → Option Bytes) (tts : TTSState) (sess : SessionData)
    (sequence : List (List ℚ)) (hvalid : 10 ≤ sequence.length)
    (hconf : CONFIDENCE_THRESHOLD ≤ (predict path sequence).2.1) :
    (process_landmarks path enabled synth tts sess sequence).events =
      [.dbLogPrediction (predict path sequence).1 (predict path sequence).2.1,
       .sendPrediction (predict path sequence).1
         (arabicLabel (predict path sequence).1)
         (round3 (predict path sequence).2.1) (predict path sequence).2.2
         (audioPayload (generate_audio enabled synth tts
            (predict path sequence).1))] := by
  have h10 : ¬ sequence.length < 10 := by omega
  have hc' : ¬ (predict path sequence).2.1 < CONFIDENCE_THRESHOLD :=
    not_lt.mpr hconf
  simp only [process_landmarks, if_neg h10, if_neg hc']

/-- C4 witness for the amended statement at a concrete above-threshold run. -/
theorem log_dispatch_precedes_response_witness :
    (process_landmarks (.dummy ⟨1, 1, 4 / 5⟩) false (fun _ => none) ⟨[]⟩ ⟨3, none⟩
        ([[1, 2]] ++ List.replicate 9 [1])).events =
      [.dbLogPrediction
         (predict (.dummy ⟨1, 1, 4 / 5⟩) ([[1, 2]] ++ List.replicate 9 [1])).1
         (predict (.dummy ⟨1, 1, 4 / 5⟩) ([[1, 2]] ++ List.replicate 9 [1])).2.1,
       .sendPrediction
         (predict (.dummy ⟨1, 1, 4 / 5⟩) ([[1, 2]] ++ List.replicate 9 [1])).1
         (arabicLabel
           (predict (.dummy ⟨1, 1, 4 / 5⟩) ([[1, 2]] ++ List.replicate 9 [1])).1)
         (round3
           (predict (.dummy ⟨1, 1, 4 / 5⟩) ([[1, 2]] ++ List.replicate 9 [1])).2.1)
         (predict (.dummy ⟨1, 1, 4 / 5⟩) ([[1, 2]] ++ List.replicate 9 [1])).2.2
         (audioPayload (generate_audio false (fun _ => none) ⟨[]⟩
           (predict (.dummy ⟨1, 1, 4 / 5⟩) ([[1, 2]] ++ List.replicate 9 [1])).1))] := by
  have hf : isRectangular ([[1, 2]] ++ List.replicate 9 ([1] : List ℚ)) = false ∨
      ([[1, 2]] ++ List.replicate 9 ([1] : List ℚ)).flatten = [] :=
    Or.inl (by decide)
  exact log_dispatch_precedes_response (.dummy ⟨1, 1, 4 / 5⟩) false (fun _ => none)
    ⟨[]⟩ ⟨3, none⟩ ([[1, 2]] ++ List.replicate 9 [1]) (by decide) (by
      simp only [predict, dummyPredict, if_pos hf]
      norm_num [CONFIDENCE_THRESHOLD])

/-- C8: a landmarks message whose frame sequence has fewer than 10 frames
(the small fixed constant at websocket.py line 222, independent of
`SEQUENCE_LENGTH` = 30) produces exactly one `error` response and nothing
else: the classifier result never matters (the result is the same for every
`path`), the session counters are untouched, no database append is
dispatched, and the audio cache is untouched. -/
theorem short_sequence_rejected (path : PredictPath) (enabled : Bool)
    (synth : String → Option Bytes) (tts : TTSState) (sess : SessionData)
    (sequence : List (List ℚ)) (hshort : sequence.length < 10) :
    process_landmarks path enabled synth tts sess sequence =
      ⟨[.sendError "Insufficient landmark data"], sess, tts⟩ := by
  simp only [process_landmarks, if_pos hshort]

/-- C8 witness: a 1-frame message is rejected with only an error event and
unchanged state. -/
theorem short_sequence_rejected_witness :
    process_landmarks (.dummy ⟨0, 0, 0⟩) true (fun _ => none) ⟨[]⟩ ⟨5, some "Ba"⟩
        [[0]] =
      ⟨[.sendError "Insufficient landmark data"], ⟨5, some "Ba"⟩, ⟨[]⟩⟩ :=
  short_sequence_rejected (.dummy ⟨0, 0, 0⟩) true (fun _ => none) ⟨[]⟩
    ⟨5, some "Ba"⟩ [[0]] (by decide)

/-- C9: when the cache misses and synthesis fails for an above-threshold
prediction, `generate_audio` returns the explicit unavailable pair
`(None, None)` (no exception propagates, nothing is cached), and the
pipeline still emits the `prediction` response — merely with no audio
payload attached. -/
theorem audio_failure_nonfatal (path : PredictPath)
    (synth : String → Option Bytes) (tts : TTSState) (sess : SessionData)
    (sequence : List (List ℚ)) (hvalid : 10 ≤ sequence.length)
    (hconf : CONFIDENCE_THRESHOLD ≤ (predict path sequence).2.1)
    (hmiss : tts.lookup (sanitizeLabel (predict path sequence).1) = none)
    (hfail : synth (pronunciationText (predict path sequence).1) = none) :
    generate_audio true synth tts (predict path sequence).1 = ⟨none, none, tts, 1⟩ ∧
    (process_landmarks path true synth tts sess sequence).events =
      [.dbLogPrediction (predict path sequence).1 (predict path sequence).2.1,
       .sendPrediction (predict path sequence).1
         (arabicLabel (predict path sequence).1)
         (round3 (predict path sequence).2.1) (predict path sequence).2.2 none] := by
  have h10 : ¬ sequence.length < 10 := by omega
  have hc' : ¬ (predict path sequence).2.1 < CONFIDENCE_THRESHOLD :=
    not_lt.mpr hconf
  have hgen : generate_audio true synth tts (predict path sequence).1 =
      ⟨none, none, tts, 1⟩ := by
    simp only [generate_audio, hmiss, hfail]
    rfl
  refine ⟨hgen, ?_⟩
  simp only [process_landmarks, if_neg h10, if_neg hc', hgen]
  simp [audioPayload]

/-- C9 witness: a concrete above-threshold run with a failing synthesizer
still produces the unavailable audio result. -/
theorem audio_failure_nonfatal_witness :
    generate_audio true (fun _ => none) ⟨[]⟩
        (predict (.dummy ⟨1, 2, 4 / 5⟩) ([[1, 2]] ++ List.replicate 9 [1])).1 =
      ⟨none, none, ⟨[]⟩, 1⟩ := by
  have hf : isRectangular ([[1, 2]] ++ List.replicate 9 ([1] : List ℚ)) = false ∨
      ([[1, 2]] ++ List.replicate 9 ([1] : List ℚ)).flatten = [] :=
    Or.inl (by decide)
  exact (audio_failure_nonfatal (.dummy ⟨1, 2, 4 / 5⟩) (fun _ => none) ⟨[]⟩
    ⟨0, none⟩ ([[1, 2]] ++ List.replicate 9 [1]) (by decide) (by
      simp only [predict, dummyPredict, if_pos hf]
      norm_num [CONFIDENCE_THRESHOLD]) rfl rfl).1

/-! ## Claim theorems: the audio cache -/

/-- C6 counterexample: with an empty cache and a synthesis capability that
fails for the label, two successive `generate_audio` calls for `"Alif"`
invoke synthesis twice — the failure is not cached (tts_service.py 85–87
returns from the `except` handler before the cache write), so the second
call is not a cache hit and the claimed "at most once across the two calls"
is false. -/
theorem get_twice_synth_twice_counterexample :
    (generate_audio true (fun _ => none) ⟨[]⟩ "Alif").synthCalls +
      (generate_audio true (fun _ => none)
        (generate_audio true (fun _ => none) ⟨[]⟩ "Alif").state "Alif").synthCalls
      = 2 ∧
    ¬ ((generate_audio true (fun _ => none) ⟨[]⟩ "Alif").synthCalls +
      (generate_audio true (fun _ => none)
        (generate_audio true (fun _ => none) ⟨[]⟩ "Alif").state "Alif").synthCalls
      ≤ 1) := by
  refine ⟨?_, ?_⟩ <;> simp [generate_audio, TTSState.lookup]

/-- C6 (amended): two successive `generate_audio` calls for the same label
with no intervening clear return identical audio and format (synthesis is
deterministic per text) and leave the cache where the first call left it;
synthesis is invoked at most once across the two calls PROVIDED the first
call did not end in a synthesis failure (it returned audio, or TTS is
disabled) — a failed synthesis is not cached, so in that case the second
call re-invokes synthesis instead of hitting the cache. -/
theorem get_twice_cached (enabled : Bool) (synth : String → Option Bytes)
    (s : TTSState) (label : String) :
    (generate_audio enabled synth
        (generate_audio enabled synth s label).state label).audio =
      (generate_audio enabled synth s label).audio ∧
    (generate_audio enabled synth
        (generate_audio enabled synth s label).state label).fmt =
      (generate_audio enabled synth s label).fmt ∧
    (generate_audio enabled synth
        (generate_audio enabled synth s label).state label).state =
      (generate_audio enabled synth s label).state ∧
    ((generate_audio enabled synth s label).audio.isSome ∨ enabled = false →
      (generate_audio enabled synth s label).synthCalls +
        (generate_audio enabled synth
          (generate_audio enabled synth s label).state label).synthCalls ≤ 1) := by
  cases enabled with
  | false => simp [generate_audio]
  | true =>
    rcases hl : s.lookup (sanitizeLabel label) with _ | data
    · rcases hs : synth (pronunciationText label) with _ | data
      · simp [generate_audio, hl, hs]
      · have hl2 : (TTSState.mk ((sanitizeLabel label, data) :: s.cache)).lookup
            (sanitizeLabel label) = some data := by
          simp [TTSState.lookup, List.find?]
        simp [generate_audio, hl, hs, hl2]
    · simp [generate_audio, hl]

/-- C6 witness for the amended statement: with a succeeding synthesizer,
the two calls together invoke synthesis exactly once. -/
theorem get_twice_cached_witness :
    (generate_audio true (fun _ => some [7]) ⟨[]⟩ "Ba").synthCalls +
      (generate_audio true (fun _ => some [7])
        (generate_audio true (fun _ => some [7]) ⟨[]⟩ "Ba").state "Ba").synthCalls
      ≤ 1 :=
  (get_twice_cached true (fun _ => some [7]) ⟨[]⟩ "Ba").2.2.2
    (Or.inl (by simp [generate_audio, TTSState.lookup]))

/-- C7: `clear_cache` empties the cache and returns exactly the number of
entries removed; an immediately following `generate_audio` for any
previously-cached label behaves as a first-time miss — it invokes synthesis
exactly once and returns the fresh synthesis result for the label's
pronunciation text, not the stale bytes. -/
theorem clear_cache_then_miss (synth : String → Option Bytes) (s : TTSState)
    (label : String) (hcached : (s.lookup (sanitizeLabel label)).isSome) :
    (clear_cache s).1 = s.cache.length ∧
    (clear_cache s).2.cache = [] ∧
    (generate_audio true synth (clear_cache s).2 label).synthCalls = 1 ∧
    (generate_audio true synth (clear_cache s).2 label).audio =
      synth (pronunciationText label) := by
  refine ⟨rfl, rfl, ?_, ?_⟩ <;>
    rcases hs : synth (pronunciationText label) with _ | data <;>
      simp [clear_cache, generate_audio, TTSState.lookup, hs]

/-- C7 witness: clearing a one-entry cache reports one removal, and the next
call for the previously-cached label re-invokes synthesis. -/
theorem clear_cache_then_miss_witness :
    (clear_cache ⟨[("ba", [1])]⟩).1 = 1 ∧
    (generate_audio true (fun _ => some [2])
        (clear_cache ⟨[("ba", [1])]⟩).2 "Ba").synthCalls = 1 ∧
    (generate_audio true (fun _ => some [2])
        (clear_cache ⟨[("ba", [1])]⟩).2 "Ba").audio = some [2] := by
  have h := clear_cache_then_miss (fun _ => some [2]) ⟨[("ba", [1])]⟩ "Ba"
    (by decide)
  exact ⟨h.1, h.2.2.1, h.2.2.2⟩

/-- C10: sanitization lowercases, so the two distinct vocabulary labels
`"Ta"` and `"ta"` share the cache key `"ta"`; after a call for `"Ta"` fills
the cache (synthesizing `"Ta"`'s pronunciation text), a call for `"ta"` is a
cache hit that returns the bytes synthesized for `"Ta"` and performs no
synthesis for `"ta"`'s own pronunciation text. -/
theorem case_insensitive_key_collision (synth : String → Option Bytes)
    (data : Bytes) (hTa : synth "Ta" = some data) :
    sanitizeLabel "Ta" = "ta" ∧ sanitizeLabel "ta" = "ta" ∧
    "Ta" ∈ LABELS ∧ "ta" ∈ LABELS ∧ ("Ta" : String) ≠ "ta" ∧
    pronunciationText "Ta" = "Ta" ∧ pronunciationText "ta" = "ta" ∧
    (generate_audio true synth ⟨[]⟩ "Ta").audio = some data ∧
    (generate_audio true synth
        (generate_audio true synth ⟨[]⟩ "Ta").state "ta").audio = some data ∧
    (generate_audio true synth
        (generate_audio true synth ⟨[]⟩ "Ta").state "ta").synthCalls = 0 := by
  have hpron : pronunciationText "Ta" = "Ta" := by decide
  have hsan : sanitizeLabel "Ta" = "ta" := by decide
  have hsan2 : sanitizeLabel "ta" = "ta" := by decide
  have hr1 : generate_audio true synth ⟨[]⟩ "Ta" =
      ⟨some data, some "mp3", ⟨[("ta", data)]⟩, 1⟩ := by
    simp [generate_audio, TTSState.lookup, hpron, hTa, hsan]
  have hhit : (TTSState.mk [("ta", data)]).lookup "ta" = some data := by
    simp [TTSState.lookup, List.find?]
  refine ⟨hsan, hsan2, by decide, by decide, by decide, hpron, by decide,
    ?_, ?_, ?_⟩
  · rw [hr1]
  · rw [hr1]
    simp [generate_audio, hsan2, hhit]
  · rw [hr1]
    simp [generate_audio, hsan2, hhit]

/-- C10 witness at a concrete synthesizer. -/
theorem case_insensitive_key_collision_witness :
    (generate_audio true (fun _ => some [9]) ⟨[]⟩ "Ta").audio = some [9] ∧
    (generate_audio true (fun _ => some [9])
        (generate_audio true (fun _ => some [9]) ⟨[]⟩ "Ta").state "ta").audio
      = some [9] ∧
    (generate_audio true (fun _ => some [9])
        (generate_audio true (fun _ => some [9]) ⟨[]⟩ "Ta").state "ta").synthCalls
      = 0 := by
  have h := case_insensitive_key_collision (fun _ => some [9]) [9] rfl
  exact ⟨h.2.2.2.2.2.2.2.1, h.2.2.2.2.2.2.2.2.1, h.2.2.2.2.2.2.2.2.2⟩
